import Mathlib

/-!
Verification of the wavemaker-agent-framework core: a shallow embedding of
the operation extractor, tool registry, tool executor and agent runtime,
with theorems settling the specification claims.

Python values flowing through the framework are JSON-like dynamic values;
they are embedded as the inductive `JVal`.  Python dicts are association
lists with unique keys; `dict.get` is `Obj.get` (absent keys give `null`,
matching Python's `None`), and Python truthiness is `JVal.truthy`.
-/

/-- A JSON-like dynamic Python value. -/
inductive JVal where
  | null
  | bool (b : Bool)
  | num (n : Int)
  | str (s : String)
  | arr (items : List JVal)
  | obj (fields : List (String × JVal))
  deriving Repr

/-- Python `v is None`. -/
def JVal.isNull : JVal → Bool
  | .null => true
  | _ => false

/-- A Python dict with string keys, as an insertion-ordered association list. -/
abbrev Obj := List (String × JVal)

/-- `d.get(k)`: value of the first matching key, `null` (Python `None`) if absent. -/
def Obj.get (o : Obj) (k : String) : JVal :=
  (o.lookup k).getD JVal.null

/-- `d.get(k, dflt)`. -/
def Obj.getD (o : Obj) (k : String) (dflt : JVal) : JVal :=
  (o.lookup k).getD dflt

/-- `k in d`. -/
def Obj.hasKey (o : Obj) (k : String) : Bool :=
  (o.lookup k).isSome

/-- Delete a key, keeping the order of the other entries
(Python `{k: v for k, v in d.items() if k != key}`). -/
def Obj.removeKey (o : Obj) (k : String) : Obj :=
  o.filter (fun p => p.1 != k)

/-- Python truthiness of a JSON-like value. -/
def JVal.truthy : JVal → Bool
  | .null => false
  | .bool b => b
  | .num n => n != 0
  | .str s => !s.isEmpty
  | .arr items => !items.isEmpty
  | .obj fields => !fields.isEmpty

/-- Python `a or b`: `a` if truthy, else `b`. -/
def JVal.pyOr (a b : JVal) : JVal :=
  if a.truthy then a else b

/-- Python `{**a, **b}`: keys of `a` in order (values overridden by `b` where
present), then keys of `b` not in `a`, in `b`'s order. -/
def Obj.merge (a b : Obj) : Obj :=
  a.map (fun p => (p.1, Obj.getD b p.1 p.2)) ++ b.filter (fun p => !Obj.hasKey a p.1)

/-!
## Operation extractor

Embedding of `operations/extractor.py`.
-/

/-- Keys that indicate campaign suggestions in agent output. -/
def CAMPAIGN_KEYS : List String :=
  ["campaigns", "campaignOptions", "suggestedCampaigns", "campaignProposals"]

/-- Keys that indicate content suggestions in agent output. -/
def CONTENT_KEYS : List String :=
  ["contents", "contentItems", "suggestedContent", "posts", "socialPosts", "contentCalendar"]

/-- Flags that indicate an item should be created in the system. -/
def CREATE_FLAGS : List String :=
  ["createInSystem", "saveToDatabase", "autoCreate", "save", "create"]

/-- Configuration of `OperationExtractor.__init__`. -/
structure OperationExtractor where
  infer_operations : Bool := true
  require_create_flag : Bool := true
  deriving Repr, DecidableEq

/-- `OperationExtractor._should_create`. -/
def OperationExtractor.should_create (ext : OperationExtractor) (item : Obj) : Bool :=
  if !ext.require_create_flag then true
  else CREATE_FLAGS.any (fun flag => (Obj.getD item flag (JVal.bool false)).truthy)

/-- The type-synonym table of `OperationExtractor._infer_content_type`. -/
def content_type_map : List (String × String) :=
  [("blog", "BLOG_POST"), ("blog_post", "BLOG_POST"), ("blogpost", "BLOG_POST"),
   ("social", "SOCIAL_POST"), ("social_post", "SOCIAL_POST"), ("socialpost", "SOCIAL_POST"),
   ("post", "SOCIAL_POST"), ("email", "EMAIL"),
   ("ad", "AD_COPY"), ("ad_copy", "AD_COPY"), ("adcopy", "AD_COPY"),
   ("landing", "LANDING_PAGE"), ("landing_page", "LANDING_PAGE"), ("landingpage", "LANDING_PAGE")]

/-- The valid explicit content types accepted uppercased by `_infer_content_type`. -/
def valid_content_types : List String :=
  ["BLOG_POST", "SOCIAL_POST", "EMAIL", "AD_COPY", "LANDING_PAGE"]

/-- `OperationExtractor._infer_content_type`.  The string methods
(`lower`, `replace`, `upper`) only apply to string payloads; a non-string
explicit type falls through to channel inference. -/
def infer_content_type (content : Obj) : String :=
  let explicitType := (Obj.get content "type").pyOr (Obj.get content "contentType")
  let fromExplicit : Option String :=
    if explicitType.truthy then
      match explicitType with
      | JVal.str s =>
          let normalized := s.toLower.replace "-" "_"
          match content_type_map.lookup normalized with
          | some t => some t
          | none =>
              if valid_content_types.contains s.toUpper then some s.toUpper else none
      | _ => none
    else none
  match fromExplicit with
  | some t => t
  | none =>
      let channel :=
        match Obj.getD content "channel" (JVal.str "") with
        | JVal.str s => s.toLower
        | _ => ""
      if ["facebook", "instagram", "linkedin", "twitter"].contains channel then "SOCIAL_POST"
      else if channel == "blog" then "BLOG_POST"
      else if channel == "email" then "EMAIL"
      else "SOCIAL_POST"

/-- `item.get("brandId") or item.get("brand_id") or default` — the brand-id
resolution shared by the campaign and content conversion paths. -/
def resolved_brand (item : Obj) (dflt : JVal) : JVal :=
  (Obj.get item "brandId").pyOr ((Obj.get item "brand_id").pyOr dflt)

/-- One loop step of `OperationExtractor._convert_campaigns_to_operations`:
`none` when the item is skipped, `some op` when an operation is emitted. -/
def convert_campaign (ext : OperationExtractor) (brand_id execution_id : JVal)
    (campaign : Obj) : Option JVal :=
  if !ext.should_create campaign then none
  else
    let item_brand_id := resolved_brand campaign brand_id
    if !item_brand_id.truthy then none
    else
      let data0 : Obj :=
        [("name", Obj.get campaign "name"),
         ("description", Obj.get campaign "description"),
         ("goal", Obj.get campaign "goal"),
         ("targetAudience", (Obj.get campaign "targetAudience").pyOr (Obj.get campaign "target_audience")),
         ("channels", Obj.getD campaign "channels" (JVal.arr [])),
         ("status", JVal.str "DRAFT")]
      let startDate := (Obj.get campaign "startDate").pyOr (Obj.get campaign "start_date")
      let data1 := if startDate.truthy then data0 ++ [("startDate", startDate)] else data0
      let endDate := (Obj.get campaign "endDate").pyOr (Obj.get campaign "end_date")
      let data2 := if endDate.truthy then data1 ++ [("endDate", endDate)] else data1
      some (JVal.obj
        [("type", JVal.str "create_campaign"),
         ("brandId", item_brand_id),
         ("data", JVal.obj (data2.filter (fun p => !p.2.isNull))),
         ("metadata", JVal.obj
           [("aiGenerated", JVal.bool true),
            ("sourceExecutionId", execution_id.pyOr (JVal.str "inferred"))])])

/-- `OperationExtractor._convert_campaigns_to_operations`. -/
def convert_campaigns_to_operations (ext : OperationExtractor) (campaigns : JVal)
    (brand_id execution_id : JVal) : List JVal :=
  match campaigns with
  | JVal.arr items =>
      items.filterMap (fun item =>
        match item with
        | JVal.obj o => convert_campaign ext brand_id execution_id o
        | _ => none)
  | _ => []

/-- `content.get("body") or content.get("content") or content.get("text") or
content.get("message")`. -/
def resolved_body (content : Obj) : JVal :=
  (Obj.get content "body").pyOr
    ((Obj.get content "content").pyOr
      ((Obj.get content "text").pyOr (Obj.get content "message")))

/-- One loop step of `OperationExtractor._convert_contents_to_operations`. -/
def convert_content (ext : OperationExtractor) (brand_id campaign_id execution_id : JVal)
    (content : Obj) : Option JVal :=
  if !ext.should_create content then none
  else
    let item_brand_id := resolved_brand content brand_id
    if !item_brand_id.truthy then none
    else
      let item_campaign_id :=
        (Obj.get content "campaignId").pyOr ((Obj.get content "campaign_id").pyOr campaign_id)
      let content_type := infer_content_type content
      let body := resolved_body content
      if !body.truthy then none
      else
        let data0 : Obj :=
          [("type", JVal.str content_type),
           ("channel", Obj.getD content "channel" (JVal.str "linkedin")),
           ("title", Obj.get content "title"),
           ("body", body),
           ("status", JVal.str "DRAFT")]
        let mediaUrls := (Obj.get content "mediaUrls").pyOr (Obj.get content "media_urls")
        let data1 := if mediaUrls.truthy then data0 ++ [("mediaUrls", mediaUrls)] else data0
        let scheduledAt := (Obj.get content "scheduledAt").pyOr (Obj.get content "scheduled_at")
        let data2 := if scheduledAt.truthy then data1 ++ [("scheduledAt", scheduledAt)] else data1
        let base : Obj :=
          [("type", JVal.str "create_content"),
           ("brandId", item_brand_id),
           ("data", JVal.obj (data2.filter (fun p => !p.2.isNull))),
           ("metadata", JVal.obj
             [("aiGenerated", JVal.bool true),
              ("sourceExecutionId", execution_id.pyOr (JVal.str "inferred"))])]
        some (JVal.obj
          (if item_campaign_id.truthy then base ++ [("campaignId", item_campaign_id)] else base))

/-- `OperationExtractor._convert_contents_to_operations`. -/
def convert_contents_to_operations (ext : OperationExtractor) (contents : JVal)
    (brand_id campaign_id execution_id : JVal) : List JVal :=
  match contents with
  | JVal.arr items =>
      items.filterMap (fun item =>
        match item with
        | JVal.obj o => convert_content ext brand_id campaign_id execution_id o
        | _ => none)
  | _ => []

/-- Step 1 of `OperationExtractor.extract`: operations carried by tool results
(`entity_operation` Python spelling checked first, then `entityOperation`),
appended verbatim in supplied order. -/
def tool_result_ops (tool_results : List JVal) : List JVal :=
  tool_results.filterMap (fun result =>
    match result with
    | JVal.obj o =>
        if (Obj.get o "entity_operation").truthy then some (Obj.get o "entity_operation")
        else if (Obj.get o "entityOperation").truthy then some (Obj.get o "entityOperation")
        else none
    | _ => none)

/-- Step 2 of `OperationExtractor.extract`: the explicit `entityOperations`
list of a dict output (appended verbatim; non-list values contribute nothing). -/
def explicit_output_ops (agent_output : JVal) : List JVal :=
  match agent_output with
  | JVal.obj o =>
      if Obj.hasKey o "entityOperations" then
        match Obj.get o "entityOperations" with
        | JVal.arr ops => ops
        | _ => []
      else []
  | _ => []

/-- The dict output after removal of `entityOperations` (empty for non-dict
outputs, which are returned unchanged by `extract`). -/
def cleaned_obj (agent_output : JVal) : Obj :=
  match agent_output with
  | JVal.obj o =>
      if Obj.hasKey o "entityOperations" then Obj.removeKey o "entityOperations" else o
  | _ => []

/-- The campaign-inference scan of `extract`: each recognized campaign key
present in the output contributes its conversions, in `CAMPAIGN_KEYS` order. -/
def inferred_campaign_ops (ext : OperationExtractor) (out : Obj)
    (default_brand_id execution_id : JVal) : List JVal :=
  CAMPAIGN_KEYS.flatMap (fun key =>
    if Obj.hasKey out key then
      convert_campaigns_to_operations ext (Obj.get out key) default_brand_id execution_id
    else [])

/-- The content-inference scan of `extract`, in `CONTENT_KEYS` order. -/
def inferred_content_ops (ext : OperationExtractor) (out : Obj)
    (default_brand_id default_campaign_id execution_id : JVal) : List JVal :=
  CONTENT_KEYS.flatMap (fun key =>
    if Obj.hasKey out key then
      convert_contents_to_operations ext (Obj.get out key) default_brand_id
        default_campaign_id execution_id
    else [])

/-- Step 3 of `extract`: all inferred operations of a dict output (the
defaults `brand_id or output.get("brandId")` etc. resolved first). -/
def inferred_ops (ext : OperationExtractor) (out : Obj)
    (brand_id campaign_id execution_id : JVal) : List JVal :=
  let default_brand_id := brand_id.pyOr (Obj.get out "brandId")
  let default_campaign_id := campaign_id.pyOr (Obj.get out "campaignId")
  inferred_campaign_ops ext out default_brand_id execution_id
    ++ inferred_content_ops ext out default_brand_id default_campaign_id execution_id

/-- `OperationExtractor.extract`.  `brand_id`, `campaign_id` and
`execution_id` are the optional call-level defaults (`JVal.null` models
Python `None`); a `None` `tool_results` is the empty list. -/
def OperationExtractor.extract (ext : OperationExtractor) (agent_output : JVal)
    (tool_results : List JVal) (brand_id campaign_id execution_id : JVal) :
    JVal × List JVal :=
  let ops0 := tool_result_ops tool_results
  match agent_output with
  | JVal.obj o =>
      let o1 := if Obj.hasKey o "entityOperations" then Obj.removeKey o "entityOperations" else o
      let ops1 := ops0 ++ explicit_output_ops (JVal.obj o)
      let ops2 :=
        if ext.infer_operations then
          ops1 ++ inferred_ops ext o1 brand_id campaign_id execution_id
        else ops1
      (JVal.obj o1, ops2)
  | _ => (agent_output, ops0)

/-!
## Tool definitions, registry and executor

Embedding of `tools/definitions.py`, `tools/registry.py` and
`tools/executor.py`.  A raised Python exception is a `PyExn` carrying the
exception's class name and its string representation; a fallible call is an
`Except PyExn` value.
-/

/-- A raised Python exception: its class name and `str(e)`. -/
structure PyExn where
  className : String
  message : String
  deriving Repr, DecidableEq

/-- `ToolCategory`. -/
inductive ToolCategory where
  | entity
  | knowledge
  | utility
  | custom
  deriving Repr, DecidableEq

/-- `ToolParameter`.  `enum = []` models Python `None` or `[]` (both falsy in
`to_json_schema`'s `if self.enum:`), `default = null` models `None`, and
`items = []` models `None` or `{}`. -/
structure ToolParameter where
  name : String
  type : String
  description : String
  required : Bool := false
  enum : List String := []
  default : JVal := JVal.null
  items : Obj := []
  deriving Repr

/-- `ToolParameter.to_json_schema`. -/
def ToolParameter.to_json_schema (p : ToolParameter) : JVal :=
  let base : Obj := [("type", JVal.str p.type), ("description", JVal.str p.description)]
  let s1 := if p.enum.isEmpty then base else base ++ [("enum", JVal.arr (p.enum.map JVal.str))]
  let s2 := if p.default.isNull then s1 else s1 ++ [("default", p.default)]
  let s3 := if p.items.isEmpty then s2 else s2 ++ [("items", JVal.obj p.items)]
  JVal.obj s3

/-- `ToolDefinition`. -/
structure ToolDefinition where
  id : String
  name : String
  description : String
  category : ToolCategory
  parameters : List ToolParameter
  returns_entity_operation : Bool := false
  deriving Repr

/-- `ToolDefinition.get_required_params`. -/
def ToolDefinition.get_required_params (d : ToolDefinition) : List String :=
  (d.parameters.filter (fun p => p.required)).map (fun p => p.name)

/-- `ToolDefinition.to_openai_function`. -/
def ToolDefinition.to_openai_function (d : ToolDefinition) : JVal :=
  JVal.obj
    [("type", JVal.str "function"),
     ("function", JVal.obj
       [("name", JVal.str d.name),
        ("description", JVal.str d.description),
        ("parameters", JVal.obj
          [("type", JVal.str "object"),
           ("properties", JVal.obj (d.parameters.map (fun p => (p.name, p.to_json_schema)))),
           ("required", JVal.arr ((d.parameters.filter (fun p => p.required)).map
             (fun p => JVal.str p.name)))])])]

/-- `ToolError`: the structured `error` payload built by `ToolResult.fail`. -/
structure ToolError where
  code : String
  message : String
  details : JVal := JVal.null
  deriving Repr

/-- `ToolResult`.  `data = null` and `entity_operation = null` model the
Python `None` defaults. -/
structure ToolResult where
  success : Bool
  data : JVal := JVal.null
  error : Option ToolError := none
  entity_operation : JVal := JVal.null
  deriving Repr

/-- `ToolResult.ok`. -/
def ToolResult.ok (data : JVal) (entity_operation : JVal) : ToolResult :=
  { success := true, data := data, entity_operation := entity_operation }

/-- `ToolResult.fail`. -/
def ToolResult.fail (code message : String) (details : JVal) : ToolResult :=
  { success := false, error := some { code := code, message := message, details := details } }

/-- `ToolResult.model_dump(by_alias=True)`: the dict form recorded into a
tool-call record (note the `entityOperation` alias). -/
def ToolResult.model_dump (r : ToolResult) : JVal :=
  JVal.obj
    [("success", JVal.bool r.success),
     ("data", r.data),
     ("error", match r.error with
       | some e => JVal.obj
           [("code", JVal.str e.code), ("message", JVal.str e.message), ("details", e.details)]
       | none => JVal.null),
     ("entityOperation", r.entity_operation)]

/-- A registered tool handler: called with the merged keyword-argument dict,
it returns a result or raises.  A synchronous result and an awaited
asynchronous result are both a returned `ToolResult`; a keyword-argument
mismatch (`TypeError` on `handler(**args)`) is a raised `PyExn` like any
other handler exception, since it occurs inside the executor's `try`. -/
def ToolHandler : Type :=
  Obj → Except PyExn ToolResult

/-- `ToolRegistry`: `_tools`, `_handlers` and `_name_to_id`, each a Python
dict embedded as an insertion-ordered association list with unique keys. -/
structure ToolRegistry where
  tools : List (String × ToolDefinition) := []
  handlers : List (String × ToolHandler) := []
  name_to_id : List (String × String) := []

/-- `ToolRegistry.register`: both duplicate checks `raise ValueError` before
any of the three mappings is assigned, so a failure leaves the caller's
registry exactly as it was; on success all three mappings gain one entry. -/
def ToolRegistry.register (reg : ToolRegistry) (definition : ToolDefinition)
    (handler : ToolHandler) : Except PyExn ToolRegistry :=
  if (reg.tools.lookup definition.id).isSome then
    Except.error
      { className := "ValueError",
        message := "Tool \x27" ++ definition.id ++ "\x27 already registered" }
  else if (reg.name_to_id.lookup definition.name).isSome then
    Except.error
      { className := "ValueError",
        message := "Function name \x27" ++ definition.name ++ "\x27 already registered" }
  else
    Except.ok
      { tools := reg.tools ++ [(definition.id, definition)],
        handlers := reg.handlers ++ [(definition.id, handler)],
        name_to_id := reg.name_to_id ++ [(definition.name, definition.id)] }

/-- `ToolRegistry.get_by_name` (note the Python truthiness test on the mapped
id: an empty-string id is treated as unmapped). -/
def ToolRegistry.get_by_name (reg : ToolRegistry) (name : String) :
    Option ToolDefinition :=
  match reg.name_to_id.lookup name with
  | some tool_id => if tool_id.isEmpty then none else reg.tools.lookup tool_id
  | none => none

/-- `ToolRegistry.get_handler_by_name`. -/
def ToolRegistry.get_handler_by_name (reg : ToolRegistry) (name : String) :
    Option ToolHandler :=
  match reg.name_to_id.lookup name with
  | some tool_id => if tool_id.isEmpty then none else reg.handlers.lookup tool_id
  | none => none

/-- `ToolRegistry.to_openai_tools`. -/
def ToolRegistry.to_openai_tools (reg : ToolRegistry)
    (tool_ids : Option (List String)) : List JVal :=
  let ids : List String := match tool_ids with
    | some l => l
    | none => reg.tools.map (fun p => p.1)
  ids.filterMap (fun tool_id =>
    (reg.tools.lookup tool_id).map ToolDefinition.to_openai_function)

/-- The executor's `arguments` union: a raw JSON string or a structured dict. -/
inductive ToolArguments where
  | rawStr (s : String)
  | rawObj (o : Obj)

/-- The executor's `try/except` around the handler invocation: a raised
exception becomes failure code `EXECUTION_ERROR` with `str(e)` as message. -/
def handle_result : Except PyExn ToolResult → ToolResult
  | Except.ok result => result
  | Except.error e => ToolResult.fail "EXECUTION_ERROR" e.message JVal.null

/-- `ToolExecutor.execute`.  `json_loads` stands for the standard library's
`json.loads` on a tool-call argument payload (a JSON object, per the LLM
function-calling contract); a parse failure is the raised
`json.JSONDecodeError`.  `context = []` models `None`/`{}` (falsy, no merge).
The function is total: every failure is a returned `ToolResult`. -/
def ToolExecutor.execute (json_loads : String → Except PyExn Obj)
    (registry : ToolRegistry) (tool_name : String) (arguments : ToolArguments)
    (context : Obj) : ToolResult :=
  let parsed : Except ToolResult Obj :=
    match arguments with
    | ToolArguments.rawStr s =>
        match json_loads s with
        | Except.ok o => Except.ok o
        | Except.error e =>
            Except.error (ToolResult.fail "INVALID_ARGUMENTS"
              ("Failed to parse arguments JSON: " ++ e.message) JVal.null)
    | ToolArguments.rawObj o => Except.ok o
  match parsed with
  | Except.error r => r
  | Except.ok args =>
      match registry.get_by_name tool_name with
      | none =>
          ToolResult.fail "TOOL_NOT_FOUND"
            ("Tool \x27" ++ tool_name ++ "\x27 is not registered") JVal.null
      | some definition =>
          match registry.get_handler_by_name tool_name with
          | none =>
              ToolResult.fail "HANDLER_NOT_FOUND"
                ("Handler for tool \x27" ++ tool_name ++ "\x27 is not registered") JVal.null
          | some handler =>
              let missing := definition.get_required_params.filter
                (fun p => !Obj.hasKey args p)
              if missing.isEmpty then
                let args2 := if context.isEmpty then args else Obj.merge args context
                handle_result (handler args2)
              else
                ToolResult.fail "MISSING_PARAMETERS"
                  ("Missing required parameters: " ++ String.intercalate ", " missing)
                  (JVal.obj [("missing", JVal.arr (missing.map JVal.str))])

/-- `ToolExecutor.execute_sync`: the same control flow as `execute` without
the await of asynchronous handler results (a handler is here already a
returned-result-or-raise function, so the body coincides). -/
def ToolExecutor.execute_sync (json_loads : String → Except PyExn Obj)
    (registry : ToolRegistry) (tool_name : String) (arguments : ToolArguments)
    (context : Obj) : ToolResult :=
  let parsed : Except ToolResult Obj :=
    match arguments with
    | ToolArguments.rawStr s =>
        match json_loads s with
        | Except.ok o => Except.ok o
        | Except.error e =>
            Except.error (ToolResult.fail "INVALID_ARGUMENTS"
              ("Failed to parse arguments JSON: " ++ e.message) JVal.null)
    | ToolArguments.rawObj o => Except.ok o
  match parsed with
  | Except.error r => r
  | Except.ok args =>
      match registry.get_by_name tool_name with
      | none =>
          ToolResult.fail "TOOL_NOT_FOUND"
            ("Tool \x27" ++ tool_name ++ "\x27 is not registered") JVal.null
      | some definition =>
          match registry.get_handler_by_name tool_name with
          | none =>
              ToolResult.fail "HANDLER_NOT_FOUND"
                ("Handler for tool \x27" ++ tool_name ++ "\x27 is not registered") JVal.null
          | some handler =>
              let missing := definition.get_required_params.filter
                (fun p => !Obj.hasKey args p)
              if missing.isEmpty then
                let args2 := if context.isEmpty then args else Obj.merge args context
                handle_result (handler args2)
              else
                ToolResult.fail "MISSING_PARAMETERS"
                  ("Missing required parameters: " ++ String.intercalate ", " missing)
                  (JVal.obj [("missing", JVal.arr (missing.map JVal.str))])

/-!
## Agent runtime

Embedding of `core/agent_runtime.py`.  The external collaborators are
parameters: `build_context_prompt` is the context injector (it may raise),
`llm` is the chat-completion client called once per loop iteration with the
iteration index, the running message history and the offered tool schemas
(it may raise), and `json_loads_any` is `json.loads` on the final output
text.  Wall-clock duration (`duration_ms`) is real time outside the
embedding and is not modeled; every other output field is.
-/

/-- One LLM-issued tool call (`id`, `function.name`, `function.arguments`). -/
structure LLMToolCall where
  id : String
  name : String
  arguments : String
  deriving Repr, DecidableEq

/-- Token usage of one LLM response. -/
structure LLMUsage where
  prompt_tokens : Nat
  completion_tokens : Nat
  total_tokens : Nat
  deriving Repr, DecidableEq

/-- One LLM response: `choices[0].message` plus `usage`.  An empty
`tool_calls` list models Python `None` or `[]` (both falsy). -/
structure LLMResponse where
  content : Option String := none
  tool_calls : List LLMToolCall := []
  usage : Option LLMUsage := none
  deriving Repr, DecidableEq

/-- A conversation message.  The user message carries the formatted input
value and a tool message the result payload; the client is abstract, so the
JSON serialization applied at the transport boundary is modeled by carrying
the serialized value itself. -/
inductive Message where
  | system (content : String)
  | user (content : JVal)
  | assistant (content : Option String) (tool_calls : List LLMToolCall)
  | tool (tool_call_id : String) (content : JVal)

/-- The running token totals (`{"prompt": 0, "completion": 0, "total": 0}`). -/
structure TokensUsed where
  prompt : Nat := 0
  completion : Nat := 0
  total : Nat := 0
  deriving Repr, DecidableEq

/-- The per-iteration token accumulation (`if response.usage:` guard). -/
def TokensUsed.add (t : TokensUsed) (usage : Option LLMUsage) : TokensUsed :=
  match usage with
  | some u =>
      { prompt := t.prompt + u.prompt_tokens,
        completion := t.completion + u.completion_tokens,
        total := t.total + u.total_tokens }
  | none => t

/-- `EntityContext`, reduced to what the runtime reads from it: `brand_id`
(passed to the extractor; `null` is `None`) and the `model_dump(by_alias=True)`
payload handed to tool handlers as `tenant_context`. -/
structure EntityContext where
  brand_id : JVal := JVal.null
  dump : JVal := JVal.null

/-- `AgentExecutionInput`. -/
structure AgentExecutionInput where
  input_data : Obj
  context : EntityContext
  execution_id : String
  system_prompt : String
  enabled_tools : List String := []
  max_iterations : Nat := 10
  model : String := "gpt-4o"

/-- The `error` payload of a failed run. -/
structure RunError where
  code : String
  message : String
  deriving Repr, DecidableEq

/-- `AgentExecutionOutput` (without the unmodeled wall-clock `duration_ms`). -/
structure AgentExecutionOutput where
  success : Bool
  output : JVal
  entity_operations : List JVal := []
  tool_calls : List JVal := []
  tokens_used : TokensUsed := {}
  error : Option RunError := none

/-- `AgentRuntime._format_user_input`: a sole `prompt` key is passed through,
anything else is serialized whole. -/
def format_user_input (input_data : Obj) : JVal :=
  if input_data.length == 1 && Obj.hasKey input_data "prompt" then
    Obj.get input_data "prompt"
  else JVal.obj input_data

/-- `ResponseFormatter.format_tool_call` (the `arguments` value is the raw
string the LLM emitted, which `isinstance(arguments, str)` passes through). -/
def format_tool_call (call_id name arguments : String) (result : JVal) : JVal :=
  JVal.obj
    [("id", JVal.str call_id),
     ("name", JVal.str name),
     ("arguments", JVal.str arguments),
     ("result", result)]

/-- The call-scoped context dict the runtime passes to the tool executor. -/
def runtime_tool_context (input : AgentExecutionInput) : Obj :=
  [("execution_id", JVal.str input.execution_id),
   ("tenant_context", input.context.dump)]

/-- One tool call executed through the shared executor with the runtime's
call-scoped context. -/
def exec_tool_call (json_loads : String → Except PyExn Obj) (reg : ToolRegistry)
    (input : AgentExecutionInput) (tc : LLMToolCall) : ToolResult :=
  ToolExecutor.execute json_loads reg tc.name (ToolArguments.rawStr tc.arguments)
    (runtime_tool_context input)

/-- The tool-call records appended to `all_tool_calls` for one assistant
turn, in the order the LLM emitted the calls. -/
def iteration_records (json_loads : String → Except PyExn Obj) (reg : ToolRegistry)
    (input : AgentExecutionInput) (tcs : List LLMToolCall) : List JVal :=
  tcs.map (fun tc =>
    format_tool_call tc.id tc.name tc.arguments
      (exec_tool_call json_loads reg input tc).model_dump)

/-- The `role=tool` messages appended to the history for one assistant turn. -/
def iteration_tool_msgs (json_loads : String → Except PyExn Obj) (reg : ToolRegistry)
    (input : AgentExecutionInput) (tcs : List LLMToolCall) : List Message :=
  tcs.map (fun tc =>
    Message.tool tc.id (exec_tool_call json_loads reg input tc).model_dump)

/-- The terminal-output handling of the loop: parse as JSON only when the
trimmed text starts with `{`; a parse failure keeps the plain text; a `None`
content stays `None`. -/
def parse_final_output (json_loads_any : String → Except PyExn JVal)
    (content : Option String) : JVal :=
  match content with
  | none => JVal.null
  | some s =>
      if !s.isEmpty && s.trim.startsWith "\x7b" then
        match json_loads_any s with
        | Except.ok v => v
        | Except.error _ => JVal.str s
      else JVal.str s

/-- The MAX_ITERATIONS terminal output. -/
def max_iterations_output (input : AgentExecutionInput) (total : TokensUsed)
    (calls : List JVal) : AgentExecutionOutput :=
  { success := false,
    output := JVal.null,
    entity_operations := [],
    tool_calls := calls,
    tokens_used := total,
    error := some
      { code := "MAX_ITERATIONS",
        message := "Agent exceeded maximum tool calling iterations ("
          ++ toString input.max_iterations ++ ")" } }

/-- The run-level exception handler of `execute`: the caught exception's
class name and string form, with the accumulated tool calls and tokens. -/
def run_error_output (e : PyExn) (total : TokensUsed) (calls : List JVal) :
    AgentExecutionOutput :=
  { success := false,
    output := JVal.null,
    entity_operations := [],
    tool_calls := calls,
    tokens_used := total,
    error := some { code := e.className, message := e.message } }

/-- The `for iteration in range(max_iterations)` loop of
`AgentRuntime.execute`: `fuel` is the number of remaining iterations, `idx`
the current iteration index, and the history, token totals and tool-call
records are the loop-carried state.  An LLM exception lands in the outer
`except` as a run-level error. -/
def agent_loop (llm : Nat → List Message → Option (List JVal) → Except PyExn LLMResponse)
    (json_loads : String → Except PyExn Obj)
    (json_loads_any : String → Except PyExn JVal)
    (reg : ToolRegistry) (ext : OperationExtractor) (input : AgentExecutionInput)
    (tools : Option (List JVal)) :
    Nat → Nat → List Message → TokensUsed → List JVal → AgentExecutionOutput
  | 0, _, _, total, calls => max_iterations_output input total calls
  | fuel + 1, idx, messages, total, calls =>
      match llm idx messages tools with
      | Except.error e => run_error_output e total calls
      | Except.ok resp =>
          let total2 := total.add resp.usage
          if resp.tool_calls.isEmpty then
            let final_output := parse_final_output json_loads_any resp.content
            let extracted := ext.extract final_output
              (calls.map (fun tc =>
                match tc with
                | JVal.obj o => Obj.getD o "result" (JVal.obj [])
                | _ => JVal.obj []))
              input.context.brand_id JVal.null (JVal.str input.execution_id)
            { success := true,
              output := extracted.1,
              entity_operations := extracted.2,
              tool_calls := calls,
              tokens_used := total2,
              error := none }
          else
            agent_loop llm json_loads json_loads_any reg ext input tools fuel (idx + 1)
              (messages ++ [Message.assistant resp.content resp.tool_calls]
                ++ iteration_tool_msgs json_loads reg input resp.tool_calls)
              total2
              (calls ++ iteration_records json_loads reg input resp.tool_calls)

/-- `AgentRuntime.execute`.  The system prompt is the agent prompt plus the
injected context; the offered tools are the enabled subset in OpenAI format
(`None` when the enabled list, or the rendered list, is empty). -/
def AgentRuntime.execute
    (build_context_prompt : EntityContext → Except PyExn String)
    (llm : Nat → List Message → Option (List JVal) → Except PyExn LLMResponse)
    (json_loads : String → Except PyExn Obj)
    (json_loads_any : String → Except PyExn JVal)
    (reg : ToolRegistry) (ext : OperationExtractor)
    (input : AgentExecutionInput) : AgentExecutionOutput :=
  match build_context_prompt input.context with
  | Except.error e => run_error_output e {} []
  | Except.ok context_str =>
      let full_system_prompt := input.system_prompt ++ "\n\n" ++ context_str
      let messages :=
        [Message.system full_system_prompt,
         Message.user (format_user_input input.input_data)]
      let tools : Option (List JVal) :=
        if input.enabled_tools.isEmpty then none
        else
          let ts := reg.to_openai_tools (some input.enabled_tools)
          if ts.isEmpty then none else some ts
      agent_loop llm json_loads json_loads_any reg ext input tools
        input.max_iterations 0 messages {} []

/-!
## Observation functions used by the claims
-/

/-- Whether an operation's `data` map (when it is a dict under a dict
operation) holds no `None`-valued key. -/
def data_no_nulls (op : JVal) : Bool :=
  match op with
  | JVal.obj fields =>
      match Obj.get fields "data" with
      | JVal.obj dataFields => dataFields.all (fun p => !p.2.isNull)
      | _ => true
  | _ => true

/-- The `brandId` an operation carries (`null` when absent). -/
def op_brand_id (op : JVal) : JVal :=
  match op with
  | JVal.obj fields => Obj.get fields "brandId"
  | _ => JVal.null

/-- The number of campaign items in a scanned value that are dicts, pass the
should-create check and resolve a brand id. -/
def campaign_brand_count (ext : OperationExtractor) (dflt : JVal)
    (campaigns : JVal) : Nat :=
  match campaigns with
  | JVal.arr items =>
      (items.filter (fun item =>
        match item with
        | JVal.obj o => ext.should_create o && (resolved_brand o dflt).truthy
        | _ => false)).length
  | _ => 0

/-- The number of content items in a scanned value that are dicts, pass the
should-create check, resolve a brand id and resolve a body. -/
def content_brand_body_count (ext : OperationExtractor) (dflt : JVal)
    (contents : JVal) : Nat :=
  match contents with
  | JVal.arr items =>
      (items.filter (fun item =>
        match item with
        | JVal.obj o =>
            ext.should_create o && ((resolved_brand o dflt).truthy
              && (resolved_body o).truthy)
        | _ => false)).length
  | _ => 0

/-!
## Helper lemmas for the operation extractor
-/

/-- The operations list of `extract` decomposes exactly into the three
sources in order: tool-result, explicit-output, inferred. -/
theorem extract_ops_decomposition (ext : OperationExtractor) (agent_output : JVal)
    (tool_results : List JVal) (b c e : JVal) :
    (ext.extract agent_output tool_results b c e).2
      = tool_result_ops tool_results ++ explicit_output_ops agent_output
        ++ (if ext.infer_operations then
              inferred_ops ext (cleaned_obj agent_output) b c e
            else []) := by
  cases agent_output with
  | obj o =>
      simp only [OperationExtractor.extract, explicit_output_ops, cleaned_obj]
      by_cases hk : Obj.hasKey o "entityOperations" <;>
        by_cases hi : ext.infer_operations <;>
          simp [hk, hi, List.append_assoc]
  | null => simp [OperationExtractor.extract, explicit_output_ops, cleaned_obj,
      inferred_ops, inferred_campaign_ops, inferred_content_ops, Obj.hasKey]
  | bool b' => simp [OperationExtractor.extract, explicit_output_ops, cleaned_obj,
      inferred_ops, inferred_campaign_ops, inferred_content_ops, Obj.hasKey]
  | num n => simp [OperationExtractor.extract, explicit_output_ops, cleaned_obj,
      inferred_ops, inferred_campaign_ops, inferred_content_ops, Obj.hasKey]
  | str s => simp [OperationExtractor.extract, explicit_output_ops, cleaned_obj,
      inferred_ops, inferred_campaign_ops, inferred_content_ops, Obj.hasKey]
  | arr items => simp [OperationExtractor.extract, explicit_output_ops, cleaned_obj,
      inferred_ops, inferred_campaign_ops, inferred_content_ops, Obj.hasKey]

/-- An emitted campaign operation has a null-free `data` map and a truthy
`brandId`. -/
theorem convert_campaign_some_props (ext : OperationExtractor) (b e : JVal)
    (o : Obj) (op : JVal) (h : convert_campaign ext b e o = some op) :
    data_no_nulls op = true ∧ (op_brand_id op).truthy = true := by
  unfold convert_campaign at h
  by_cases h1 : ext.should_create o
  · simp only [h1] at h
    by_cases h2 : (resolved_brand o b).truthy
    · simp only [h2, Bool.not_true, Bool.false_eq_true, if_false] at h
      injection h with h
      subst h
      refine ⟨?_, ?_⟩
      · simp [data_no_nulls, Obj.get, List.lookup, List.all_eq_true]
      · simp [op_brand_id, Obj.get, List.lookup]
        exact h2
    · simp [h2] at h
  · simp [h1] at h

/-- A conditional suffix-append, written with the suffix under the
conditional. -/
theorem list_append_ite {α : Type} (c : Prop) [Decidable c] (l y : List α) :
    (if c then l ++ y else l) = l ++ (if c then y else []) := by
  split <;> simp

/-- An emitted content operation has a null-free `data` map and a truthy
`brandId`. -/
theorem convert_content_some_props (ext : OperationExtractor) (b c e : JVal)
    (o : Obj) (op : JVal) (h : convert_content ext b c e o = some op) :
    data_no_nulls op = true ∧ (op_brand_id op).truthy = true := by
  unfold convert_content at h
  by_cases h1 : ext.should_create o
  · simp only [h1] at h
    by_cases h2 : (resolved_brand o b).truthy
    · simp only [h2, Bool.not_true, Bool.false_eq_true, if_false] at h
      by_cases h3 : (resolved_body o).truthy
      · simp only [h3, Bool.not_true, Bool.false_eq_true, if_false] at h
        rw [list_append_ite] at h
        injection h with h
        subst h
        refine ⟨?_, ?_⟩
        · simp [data_no_nulls, Obj.get, List.lookup, List.all_eq_true]
        · simp [op_brand_id, Obj.get, List.lookup]
          exact h2
      · simp [h3] at h
    · simp [h2] at h
  · simp [h1] at h

/-- Every member of a campaign conversion pass comes from some emitted item. -/
theorem mem_convert_campaigns (ext : OperationExtractor) (v b e : JVal) (op : JVal)
    (h : op ∈ convert_campaigns_to_operations ext v b e) :
    ∃ o, convert_campaign ext b e o = some op := by
  cases v <;> simp [convert_campaigns_to_operations] at h
  case arr items =>
    obtain ⟨item, _, hconv⟩ := h
    cases item <;> simp at hconv
    exact ⟨_, hconv⟩

/-- Every member of a content conversion pass comes from some emitted item. -/
theorem mem_convert_contents (ext : OperationExtractor) (v b c e : JVal) (op : JVal)
    (h : op ∈ convert_contents_to_operations ext v b c e) :
    ∃ o, convert_content ext b c e o = some op := by
  cases v <;> simp [convert_contents_to_operations] at h
  case arr items =>
    obtain ⟨item, _, hconv⟩ := h
    cases item <;> simp at hconv
    exact ⟨_, hconv⟩

/-- Every inferred operation comes from an emitted campaign or content item. -/
theorem mem_inferred_ops (ext : OperationExtractor) (out : Obj)
    (b c e : JVal) (op : JVal) (h : op ∈ inferred_ops ext out b c e) :
    (∃ o, convert_campaign ext (b.pyOr (Obj.get out "brandId")) e o = some op)
    ∨ (∃ o, convert_content ext (b.pyOr (Obj.get out "brandId"))
        (c.pyOr (Obj.get out "campaignId")) e o = some op) := by
  simp only [inferred_ops] at h
  rcases List.mem_append.mp h with hc | hc
  · left
    simp only [inferred_campaign_ops] at hc
    obtain ⟨key, _, hmem⟩ := List.mem_flatMap.mp hc
    by_cases hk : Obj.hasKey out key
    · rw [if_pos hk] at hmem
      exact mem_convert_campaigns _ _ _ _ _ hmem
    · rw [if_neg hk] at hmem
      exact absurd hmem (List.not_mem_nil op)
  · right
    simp only [inferred_content_ops] at hc
    obtain ⟨key, _, hmem⟩ := List.mem_flatMap.mp hc
    by_cases hk : Obj.hasKey out key
    · rw [if_pos hk] at hmem
      exact mem_convert_contents _ _ _ _ _ _ hmem
    · rw [if_neg hk] at hmem
      exact absurd hmem (List.not_mem_nil op)

/-- Tool results that each wrap a truthy operation under `entity_operation`
pass exactly their operations through, in order. -/
theorem tool_result_ops_wrap (ops : List JVal) (h : ∀ op ∈ ops, op.truthy = true) :
    tool_result_ops (ops.map (fun op => JVal.obj [("entity_operation", op)])) = ops := by
  induction ops with
  | nil => rfl
  | cons a t ih =>
      have ha : a.truthy = true := h a (List.mem_cons_self a t)
      have ih2 := ih (fun op hop => h op (List.mem_cons_of_mem a hop))
      simp only [tool_result_ops] at ih2 ⊢
      simp [Obj.get, List.lookup, ha, List.filterMap_map] at ih2 ⊢
      simp [ih2]

/-- `filterMap` and `filter` agree on length when the emission test matches. -/
theorem length_filterMap_eq_length_filter {α β : Type} (f : α → Option β)
    (g : α → Bool) (hfg : ∀ a, (f a).isSome = g a) (l : List α) :
    (l.filterMap f).length = (l.filter g).length := by
  induction l with
  | nil => rfl
  | cons a t ih =>
      rw [List.filterMap_cons, List.filter_cons]
      rcases hfa : f a with _ | b
      · have hg : g a = false := by rw [← hfg a, hfa]; rfl
        simp [hg, ih]
      · have hg : g a = true := by rw [← hfg a, hfa]; rfl
        simp [hg, ih]

/-- A campaign item is emitted exactly when it passes the should-create check
and resolves a brand id. -/
theorem convert_campaign_isSome (ext : OperationExtractor) (b e : JVal) (o : Obj) :
    (convert_campaign ext b e o).isSome
      = (ext.should_create o && (resolved_brand o b).truthy) := by
  unfold convert_campaign
  by_cases h1 : ext.should_create o <;>
    by_cases h2 : (resolved_brand o b).truthy <;>
      simp [h1, h2]

/-- A content item is emitted exactly when it passes the should-create check,
resolves a brand id and resolves a body. -/
theorem convert_content_isSome (ext : OperationExtractor) (b c e : JVal) (o : Obj) :
    (convert_content ext b c e o).isSome
      = (ext.should_create o && ((resolved_brand o b).truthy
          && (resolved_body o).truthy)) := by
  unfold convert_content
  by_cases h1 : ext.should_create o <;>
    by_cases h2 : (resolved_brand o b).truthy <;>
      by_cases h3 : (resolved_body o).truthy <;>
        simp [h1, h2, h3]

/-- The campaign pass emits one operation per dict item passing should-create
and brand resolution. -/
theorem convert_campaigns_length (ext : OperationExtractor) (v b e : JVal) :
    (convert_campaigns_to_operations ext v b e).length
      = campaign_brand_count ext b v := by
  cases v <;> simp only [convert_campaigns_to_operations, campaign_brand_count,
    List.length_nil]
  case arr items =>
    apply length_filterMap_eq_length_filter
    intro a
    cases a <;> simp [convert_campaign_isSome]

/-- The content pass emits one operation per dict item passing should-create,
brand resolution and body resolution. -/
theorem convert_contents_length (ext : OperationExtractor) (v b c e : JVal) :
    (convert_contents_to_operations ext v b c e).length
      = content_brand_body_count ext b v := by
  cases v <;> simp only [convert_contents_to_operations, content_brand_body_count,
    List.length_nil]
  case arr items =>
    apply length_filterMap_eq_length_filter
    intro a
    cases a <;> simp [convert_content_isSome]

/-!
## Claim theorems: operation extractor
-/

/-- C1 counterexample: a tool result whose `entity_operation` carries a
null-valued `data` key is appended verbatim by `extract`, so the returned
list contains an operation whose `data` map has a null value — the no-null
invariant does not hold for tool-sourced operations. -/
theorem c1_counterexample :
    (OperationExtractor.extract {} JVal.null
        [JVal.obj [("entity_operation", JVal.obj
          [("type", JVal.str "create_campaign"),
           ("data", JVal.obj [("name", JVal.null)])])]]
        JVal.null JVal.null JVal.null).2
      = [JVal.obj [("type", JVal.str "create_campaign"),
          ("data", JVal.obj [("name", JVal.null)])]]
    ∧ data_no_nulls (JVal.obj [("type", JVal.str "create_campaign"),
        ("data", JVal.obj [("name", JVal.null)])]) = false := by
  exact ⟨rfl, rfl⟩

/-- C1 (amended): `extract`'s operations list is the verbatim tool-result
operations, then the verbatim explicit-output operations, then the inferred
operations; every *inferred* operation's `data` map contains no null-valued
key (nulls are stripped before emission on the inference paths only —
tool-sourced and explicit operations are passed through unchanged). -/
theorem c1_inferred_ops_no_null_data :
    (∀ (ext : OperationExtractor) (agent_output : JVal) (tool_results : List JVal)
        (b c e : JVal),
      (ext.extract agent_output tool_results b c e).2
        = tool_result_ops tool_results ++ explicit_output_ops agent_output
          ++ (if ext.infer_operations then
                inferred_ops ext (cleaned_obj agent_output) b c e
              else []))
    ∧ (∀ (ext : OperationExtractor) (out : Obj) (b c e op : JVal),
        op ∈ inferred_ops ext out b c e → data_no_nulls op = true) := by
  constructor
  · exact extract_ops_decomposition
  · intro ext out b c e op h
    rcases mem_inferred_ops ext out b c e op h with ⟨o, ho⟩ | ⟨o, ho⟩
    · exact (convert_campaign_some_props _ _ _ _ _ ho).1
    · exact (convert_content_some_props _ _ _ _ _ _ ho).1

/-- C1 witness: a concrete inference run (a campaign item with a null `name`)
emits an operation whose `data` map carries no null value. -/
theorem c1_witness :
    data_no_nulls (JVal.obj
      [("type", JVal.str "create_campaign"),
       ("brandId", JVal.str "b"),
       ("data", JVal.obj [("channels", JVal.arr []), ("status", JVal.str "DRAFT")]),
       ("metadata", JVal.obj [("aiGenerated", JVal.bool true),
         ("sourceExecutionId", JVal.str "inferred")])]) = true :=
  c1_inferred_ops_no_null_data.2 {}
    [("campaigns", JVal.arr [JVal.obj
      [("save", JVal.bool true), ("brandId", JVal.str "b"), ("name", JVal.null)]])]
    JVal.null JVal.null JVal.null _ (List.Mem.head _)

/-- C2: the combined operations list is ordered tool-result operations (in
supplied order), then explicit `entityOperations` (in list order), then
inferred campaign operations (in `CAMPAIGN_KEYS` scan order), then inferred
content operations (in `CONTENT_KEYS` scan order); in particular, with
inference disabled, N truthy tool-carried operations followed by M explicit
output operations give exactly those N+M operations in that relative order. -/
theorem c2_extract_order :
    (∀ (ext : OperationExtractor) (agent_output : JVal) (tool_results : List JVal)
        (b c e : JVal),
      (ext.extract agent_output tool_results b c e).2
        = tool_result_ops tool_results ++ explicit_output_ops agent_output
          ++ (if ext.infer_operations then
                inferred_campaign_ops ext (cleaned_obj agent_output)
                  (b.pyOr (Obj.get (cleaned_obj agent_output) "brandId")) e
                ++ inferred_content_ops ext (cleaned_obj agent_output)
                  (b.pyOr (Obj.get (cleaned_obj agent_output) "brandId"))
                  (c.pyOr (Obj.get (cleaned_obj agent_output) "campaignId")) e
              else []))
    ∧ (∀ (ops es : List JVal) (rcf : Bool) (b c e : JVal),
        (∀ op ∈ ops, op.truthy = true) →
        (OperationExtractor.extract ⟨false, rcf⟩
            (JVal.obj [("entityOperations", JVal.arr es)])
            (ops.map (fun op => JVal.obj [("entity_operation", op)])) b c e).2
          = ops ++ es
        ∧ ((OperationExtractor.extract ⟨false, rcf⟩
              (JVal.obj [("entityOperations", JVal.arr es)])
              (ops.map (fun op => JVal.obj [("entity_operation", op)])) b c e).2).length
            = ops.length + es.length) := by
  constructor
  · intro ext agent_output tool_results b c e
    rw [extract_ops_decomposition]
    simp only [inferred_ops]
  · intro ops es rcf b c e h
    have hdec := extract_ops_decomposition ⟨false, rcf⟩
      (JVal.obj [("entityOperations", JVal.arr es)])
      (ops.map (fun op => JVal.obj [("entity_operation", op)])) b c e
    simp only [if_neg (by simp : ¬((false : Bool) = true))] at hdec
    rw [tool_result_ops_wrap ops h] at hdec
    have hex : explicit_output_ops (JVal.obj [("entityOperations", JVal.arr es)]) = es := by
      simp [explicit_output_ops, Obj.hasKey, Obj.get, List.lookup]
    rw [hex] at hdec
    simp only [List.append_nil] at hdec
    exact ⟨hdec, by rw [hdec]; exact List.length_append ops es⟩

/-- C2 witness: one tool-carried operation and one explicit operation, with
inference disabled, give exactly those two operations in that order. -/
theorem c2_witness :
    (OperationExtractor.extract ⟨false, true⟩
        (JVal.obj [("entityOperations", JVal.arr
          [JVal.obj [("type", JVal.str "update_campaign")]])])
        ([JVal.obj [("type", JVal.str "create_brand")]].map
          (fun op => JVal.obj [("entity_operation", op)]))
        JVal.null JVal.null JVal.null).2
      = [JVal.obj [("type", JVal.str "create_brand")],
         JVal.obj [("type", JVal.str "update_campaign")]]
    ∧ ((OperationExtractor.extract ⟨false, true⟩
        (JVal.obj [("entityOperations", JVal.arr
          [JVal.obj [("type", JVal.str "update_campaign")]])])
        ([JVal.obj [("type", JVal.str "create_brand")]].map
          (fun op => JVal.obj [("entity_operation", op)]))
        JVal.null JVal.null JVal.null).2).length = 1 + 1 :=
  c2_extract_order.2 [JVal.obj [("type", JVal.str "create_brand")]]
    [JVal.obj [("type", JVal.str "update_campaign")]] true JVal.null JVal.null JVal.null
    (by intro op hop
        rw [List.mem_singleton.mp hop]
        rfl)

/-- C4 counterexample: a content item that passes the should-create check and
resolves a brand id can still be skipped (it has no body), so the count of
emitted inferred operations is not the count of qualifying items that
resolve a brand id. -/
theorem c4_counterexample :
    ((OperationExtractor.extract {}
        (JVal.obj [("posts", JVal.arr
          [JVal.obj [("create", JVal.bool true), ("brandId", JVal.str "b1")]])])
        [] JVal.null JVal.null JVal.null).2).length = 0
    ∧ OperationExtractor.should_create {}
        [("create", JVal.bool true), ("brandId", JVal.str "b1")] = true
    ∧ (resolved_brand [("create", JVal.bool true), ("brandId", JVal.str "b1")]
        JVal.null).truthy = true := by
  exact ⟨rfl, rfl, rfl⟩

/-- C4 (amended): an inferred item lacking a resolvable brand id is skipped,
so every inferred operation carries a (truthy) brand id; the emitted
inferred campaign operations number exactly the dict items that pass the
should-create check and resolve a brand id, and the emitted inferred content
operations number exactly the dict items that pass the should-create check,
resolve a brand id and additionally resolve a body. -/
theorem c4_brand_id_gating :
    (∀ (ext : OperationExtractor) (out : Obj) (b c e op : JVal),
        op ∈ inferred_ops ext out b c e → (op_brand_id op).truthy = true)
    ∧ (∀ (ext : OperationExtractor) (v b e : JVal),
        (convert_campaigns_to_operations ext v b e).length
          = campaign_brand_count ext b v)
    ∧ (∀ (ext : OperationExtractor) (v b c e : JVal),
        (convert_contents_to_operations ext v b c e).length
          = content_brand_body_count ext b v) := by
  refine ⟨?_, convert_campaigns_length, convert_contents_length⟩
  intro ext out b c e op h
  rcases mem_inferred_ops ext out b c e op h with ⟨o, ho⟩ | ⟨o, ho⟩
  · exact (convert_campaign_some_props _ _ _ _ _ ho).2
  · exact (convert_content_some_props _ _ _ _ _ _ ho).2

/-- C4 witness: the concrete inferred operation of the C1 scenario carries a
truthy brand id. -/
theorem c4_witness :
    (op_brand_id (JVal.obj
      [("type", JVal.str "create_campaign"),
       ("brandId", JVal.str "b"),
       ("data", JVal.obj [("channels", JVal.arr []), ("status", JVal.str "DRAFT")]),
       ("metadata", JVal.obj [("aiGenerated", JVal.bool true),
         ("sourceExecutionId", JVal.str "inferred")])])).truthy = true :=
  c4_brand_id_gating.1 {}
    [("campaigns", JVal.arr [JVal.obj
      [("save", JVal.bool true), ("brandId", JVal.str "b"), ("name", JVal.null)]])]
    JVal.null JVal.null JVal.null _ (List.Mem.head _)

/-!
## Helper lemmas for the tool executor and registry
-/

/-- Looking a key up in the overridden copy of `a` (the left part of a
Python `{**a, **b}` merge) yields `b`'s value when both maps carry the key. -/
theorem lookup_map_override (a : Obj) (b : Obj) (rest : Obj) (k : String)
    (ha : Obj.hasKey a k = true) (hb : Obj.hasKey b k = true) :
    List.lookup k (a.map (fun p => (p.1, Obj.getD b p.1 p.2)) ++ rest)
      = List.lookup k b := by
  induction a with
  | nil => simp [Obj.hasKey] at ha
  | cons p t ih =>
      rw [List.map_cons, List.cons_append]
      by_cases hk : (k == p.1)
      · have hkeq : k = p.1 := eq_of_beq hk
        simp only [List.lookup, hk]
        rw [← hkeq]
        unfold Obj.hasKey at hb
        obtain ⟨v, hv⟩ := Option.isSome_iff_exists.mp hb
        simp [Obj.getD, hv]
      · simp only [List.lookup, hk]
        apply ih
        simp [Obj.hasKey, List.lookup, hk] at ha
        simpa [Obj.hasKey] using ha

/-- In a Python `{**args, **context}` merge, a key present in both maps
resolves to the context's value. -/
theorem merge_get_context_wins (a b : Obj) (k : String)
    (ha : Obj.hasKey a k = true) (hb : Obj.hasKey b k = true) :
    Obj.get (Obj.merge a b) k = Obj.get b k := by
  unfold Obj.merge Obj.get
  rw [lookup_map_override a b _ k ha hb]

/-- The executor's success path: once the tool and handler resolve and no
required parameter is missing, `execute` is the guarded handler invocation on
the (possibly context-merged) argument map. -/
theorem execute_success_path (jl : String → Except PyExn Obj) (reg : ToolRegistry)
    (tool_name : String) (d : ToolDefinition) (hfun : ToolHandler)
    (args context : Obj)
    (hd : reg.get_by_name tool_name = some d)
    (hh : reg.get_handler_by_name tool_name = some hfun)
    (hnomiss : d.get_required_params.filter (fun p => !Obj.hasKey args p) = []) :
    ToolExecutor.execute jl reg tool_name (ToolArguments.rawObj args) context
      = handle_result (hfun (if context.isEmpty then args else Obj.merge args context))
    ∧ ToolExecutor.execute_sync jl reg tool_name (ToolArguments.rawObj args) context
      = handle_result (hfun (if context.isEmpty then args else Obj.merge args context)) := by
  constructor
  · simp [ToolExecutor.execute, hd, hh, hnomiss]
  · simp [ToolExecutor.execute_sync, hd, hh, hnomiss]

/-!
## Claim theorems: tool executor and registry
-/

/-- C5: with the tool and handler resolved, if any required parameters are
absent from the parsed arguments, `execute` fails with `MISSING_PARAMETERS`
and a `details.missing` list holding exactly the required parameters that
are absent — each listed name is a required parameter missing from the
arguments, and every such parameter is listed. -/
theorem c5_missing_parameters (jl : String → Except PyExn Obj)
    (reg : ToolRegistry) (tool_name : String) (d : ToolDefinition)
    (hfun : ToolHandler) (args context : Obj)
    (hd : reg.get_by_name tool_name = some d)
    (hh : reg.get_handler_by_name tool_name = some hfun)
    (hmiss : d.get_required_params.filter (fun p => !Obj.hasKey args p) ≠ []) :
    ToolExecutor.execute jl reg tool_name (ToolArguments.rawObj args) context
      = ToolResult.fail "MISSING_PARAMETERS"
          ("Missing required parameters: " ++ String.intercalate ", "
            (d.get_required_params.filter (fun p => !Obj.hasKey args p)))
          (JVal.obj [("missing", JVal.arr
            ((d.get_required_params.filter (fun p => !Obj.hasKey args p)).map JVal.str))])
    ∧ (∀ p, p ∈ d.get_required_params.filter (fun p => !Obj.hasKey args p)
        ↔ (p ∈ d.get_required_params ∧ Obj.hasKey args p = false)) := by
  constructor
  · have hne : (d.get_required_params.filter (fun p => !Obj.hasKey args p)).isEmpty = false :=
      List.isEmpty_eq_false.mpr hmiss
    simp [ToolExecutor.execute, hd, hh, hne]
  · intro p
    rw [List.mem_filter]
    simp

/-- C5 witness: a concrete tool with two required parameters, called with
one of them, fails with `MISSING_PARAMETERS` listing exactly the other. -/
theorem c5_witness :
    ToolExecutor.execute (fun _ => Except.error { className := "JSONDecodeError", message := "x" })
      { tools := [("t1",
          { id := "t1", name := "create_campaign", description := "create a campaign",
            category := ToolCategory.entity,
            parameters :=
              [{ name := "brand_id", type := "string", description := "brand", required := true },
               { name := "name", type := "string", description := "name", required := true }] })],
        handlers := [("t1", fun _ => Except.ok (ToolResult.ok JVal.null JVal.null))],
        name_to_id := [("create_campaign", "t1")] }
      "create_campaign" (ToolArguments.rawObj [("name", JVal.str "Q2 Push")]) []
      = ToolResult.fail "MISSING_PARAMETERS"
          "Missing required parameters: brand_id"
          (JVal.obj [("missing", JVal.arr [JVal.str "brand_id"])]) :=
  (c5_missing_parameters (fun _ => Except.error { className := "JSONDecodeError", message := "x" })
    { tools := [("t1",
        { id := "t1", name := "create_campaign", description := "create a campaign",
          category := ToolCategory.entity,
          parameters :=
            [{ name := "brand_id", type := "string", description := "brand", required := true },
             { name := "name", type := "string", description := "name", required := true }] })],
      handlers := [("t1", fun _ => Except.ok (ToolResult.ok JVal.null JVal.null))],
      name_to_id := [("create_campaign", "t1")] }
    "create_campaign"
    { id := "t1", name := "create_campaign", description := "create a campaign",
      category := ToolCategory.entity,
      parameters :=
        [{ name := "brand_id", type := "string", description := "brand", required := true },
         { name := "name", type := "string", description := "name", required := true }] }
    (fun _ => Except.ok (ToolResult.ok JVal.null JVal.null))
    [("name", JVal.str "Q2 Push")] [] rfl rfl (by decide)).1

/-- C6: when the resolved handler raises, both `execute` and `execute_sync`
return a failure `ToolResult` with code `EXECUTION_ERROR` and the
exception's string representation as message; being total functions into
`ToolResult`, they never propagate the exception to the caller. -/
theorem c6_execution_error (jl : String → Except PyExn Obj)
    (reg : ToolRegistry) (tool_name : String) (d : ToolDefinition)
    (hfun : ToolHandler) (args context : Obj) (e : PyExn)
    (hd : reg.get_by_name tool_name = some d)
    (hh : reg.get_handler_by_name tool_name = some hfun)
    (hnomiss : d.get_required_params.filter (fun p => !Obj.hasKey args p) = [])
    (hraise : hfun (if context.isEmpty then args else Obj.merge args context)
      = Except.error e) :
    ToolExecutor.execute jl reg tool_name (ToolArguments.rawObj args) context
      = ToolResult.fail "EXECUTION_ERROR" e.message JVal.null
    ∧ ToolExecutor.execute_sync jl reg tool_name (ToolArguments.rawObj args) context
      = ToolResult.fail "EXECUTION_ERROR" e.message JVal.null := by
  obtain ⟨h1, h2⟩ := execute_success_path jl reg tool_name d hfun args context hd hh hnomiss
  rw [h1, h2, hraise]
  exact ⟨rfl, rfl⟩

/-- C6 witness: a handler raising `RuntimeError("boom")` surfaces as an
`EXECUTION_ERROR` failure with message `boom`. -/
theorem c6_witness :
    ToolExecutor.execute (fun _ => Except.error { className := "JSONDecodeError", message := "x" })
      { tools := [("t2",
          { id := "t2", name := "boom_tool", description := "always raises",
            category := ToolCategory.utility, parameters := [] })],
        handlers := [("t2", fun _ =>
          Except.error { className := "RuntimeError", message := "boom" })],
        name_to_id := [("boom_tool", "t2")] }
      "boom_tool" (ToolArguments.rawObj []) []
      = ToolResult.fail "EXECUTION_ERROR" "boom" JVal.null
    ∧ ToolExecutor.execute_sync (fun _ => Except.error { className := "JSONDecodeError", message := "x" })
      { tools := [("t2",
          { id := "t2", name := "boom_tool", description := "always raises",
            category := ToolCategory.utility, parameters := [] })],
        handlers := [("t2", fun _ =>
          Except.error { className := "RuntimeError", message := "boom" })],
        name_to_id := [("boom_tool", "t2")] }
      "boom_tool" (ToolArguments.rawObj []) []
      = ToolResult.fail "EXECUTION_ERROR" "boom" JVal.null :=
  c6_execution_error (fun _ => Except.error { className := "JSONDecodeError", message := "x" })
    { tools := [("t2",
        { id := "t2", name := "boom_tool", description := "always raises",
          category := ToolCategory.utility, parameters := [] })],
      handlers := [("t2", fun _ =>
        Except.error { className := "RuntimeError", message := "boom" })],
      name_to_id := [("boom_tool", "t2")] }
    "boom_tool"
    { id := "t2", name := "boom_tool", description := "always raises",
      category := ToolCategory.utility, parameters := [] }
    (fun _ => Except.error { className := "RuntimeError", message := "boom" })
    [] [] { className := "RuntimeError", message := "boom" } rfl rfl rfl rfl

/-- C10: with a non-empty (truthy) context, both `execute` and `execute_sync`
invoke the handler on `{**args, **context}`, and a key present in both the
parsed arguments and the context resolves there to the context's value —
context keys take precedence. -/
theorem c10_context_precedence (jl : String → Except PyExn Obj)
    (reg : ToolRegistry) (tool_name : String) (d : ToolDefinition)
    (hfun : ToolHandler) (args context : Obj) (k : String)
    (hd : reg.get_by_name tool_name = some d)
    (hh : reg.get_handler_by_name tool_name = some hfun)
    (hnomiss : d.get_required_params.filter (fun p => !Obj.hasKey args p) = [])
    (hctx : context ≠ []) :
    ToolExecutor.execute jl reg tool_name (ToolArguments.rawObj args) context
      = handle_result (hfun (Obj.merge args context))
    ∧ ToolExecutor.execute_sync jl reg tool_name (ToolArguments.rawObj args) context
      = handle_result (hfun (Obj.merge args context))
    ∧ (Obj.hasKey args k = true → Obj.hasKey context k = true →
        Obj.get (Obj.merge args context) k = Obj.get context k) := by
  have hce : context.isEmpty = false := List.isEmpty_eq_false.mpr hctx
  obtain ⟨h1, h2⟩ := execute_success_path jl reg tool_name d hfun args context hd hh hnomiss
  rw [hce] at h1 h2
  simp only [Bool.false_eq_true, if_false] at h1 h2
  exact ⟨h1, h2, fun ha hb => merge_get_context_wins args context k ha hb⟩

/-- C10 witness: an `execution_id` supplied by the caller in the arguments is
overridden by the runtime context's value before the handler sees it. -/
theorem c10_witness :
    ToolExecutor.execute (fun _ => Except.error { className := "JSONDecodeError", message := "x" })
      { tools := [("t3",
          { id := "t3", name := "echo_tool", description := "echoes execution_id",
            category := ToolCategory.utility, parameters := [] })],
        handlers := [("t3", fun o => Except.ok (ToolResult.ok (Obj.get o "execution_id") JVal.null))],
        name_to_id := [("echo_tool", "t3")] }
      "echo_tool" (ToolArguments.rawObj [("execution_id", JVal.str "spoofed")])
      [("execution_id", JVal.str "real-exec")]
      = ToolResult.ok (JVal.str "real-exec") JVal.null
    ∧ Obj.get (Obj.merge [("execution_id", JVal.str "spoofed")]
        [("execution_id", JVal.str "real-exec")]) "execution_id"
      = Obj.get [("execution_id", JVal.str "real-exec")] "execution_id" := by
  have h := c10_context_precedence
    (fun _ => Except.error { className := "JSONDecodeError", message := "x" })
    { tools := [("t3",
        { id := "t3", name := "echo_tool", description := "echoes execution_id",
          category := ToolCategory.utility, parameters := [] })],
      handlers := [("t3", fun o => Except.ok (ToolResult.ok (Obj.get o "execution_id") JVal.null))],
      name_to_id := [("echo_tool", "t3")] }
    "echo_tool"
    { id := "t3", name := "echo_tool", description := "echoes execution_id",
      category := ToolCategory.utility, parameters := [] }
    (fun o => Except.ok (ToolResult.ok (Obj.get o "execution_id") JVal.null))
    [("execution_id", JVal.str "spoofed")] [("execution_id", JVal.str "real-exec")]
    "execution_id" rfl rfl rfl (List.cons_ne_nil _ _)
  exact ⟨h.1, h.2.2 rfl rfl⟩

/-- C7 counterexample: registering a definition whose id is already taken
raises a plain `ValueError` — the exception class is `ValueError`, not a
dedicated `DuplicateToolError` (no such class exists in the code). -/
theorem c7_counterexample :
    ToolRegistry.register
      { tools := [("t1",
          { id := "t1", name := "create_campaign", description := "create a campaign",
            category := ToolCategory.entity, parameters := [] })],
        handlers := [("t1", fun _ => Except.ok (ToolResult.ok JVal.null JVal.null))],
        name_to_id := [("create_campaign", "t1")] }
      { id := "t1", name := "other_name", description := "same id again",
        category := ToolCategory.entity, parameters := [] }
      (fun _ => Except.ok (ToolResult.ok JVal.null JVal.null))
      = Except.error
          { className := "ValueError", message := "Tool \x27t1\x27 already registered" }
    ∧ "ValueError" ≠ "DuplicateToolError" := by
  exact ⟨rfl, by decide⟩

/-- C7 (amended): `register` raises `ValueError` (not dedicated duplicate
error classes) — with message `Tool '<id>' already registered` when the id
is taken (checked first), with message `Function name '<name>' already
registered` when the callable name collides; both checks run before any of
the three mappings is assigned, so a failed `register` leaves every mapping
unchanged, and a successful one appends exactly one entry to each. -/
theorem c7_register_duplicates (reg : ToolRegistry) (d : ToolDefinition)
    (hfun : ToolHandler) :
    ((reg.tools.lookup d.id).isSome = true →
      reg.register d hfun = Except.error
        { className := "ValueError",
          message := "Tool \x27" ++ d.id ++ "\x27 already registered" })
    ∧ ((reg.tools.lookup d.id).isSome = false →
      (reg.name_to_id.lookup d.name).isSome = true →
      reg.register d hfun = Except.error
        { className := "ValueError",
          message := "Function name \x27" ++ d.name ++ "\x27 already registered" })
    ∧ ((reg.tools.lookup d.id).isSome = false →
      (reg.name_to_id.lookup d.name).isSome = false →
      reg.register d hfun = Except.ok
        { tools := reg.tools ++ [(d.id, d)],
          handlers := reg.handlers ++ [(d.id, hfun)],
          name_to_id := reg.name_to_id ++ [(d.name, d.id)] }) := by
  refine ⟨fun h1 => ?_, fun h1 h2 => ?_, fun h1 h2 => ?_⟩
  · simp [ToolRegistry.register, h1]
  · simp [ToolRegistry.register, h1, h2]
  · simp [ToolRegistry.register, h1, h2]

/-- C7 witness: a name collision under a fresh id raises the name-collision
`ValueError`. -/
theorem c7_witness :
    ToolRegistry.register
      { tools := [("t1",
          { id := "t1", name := "create_campaign", description := "create a campaign",
            category := ToolCategory.entity, parameters := [] })],
        handlers := [("t1", fun _ => Except.ok (ToolResult.ok JVal.null JVal.null))],
        name_to_id := [("create_campaign", "t1")] }
      { id := "t9", name := "create_campaign", description := "same name again",
        category := ToolCategory.entity, parameters := [] }
      (fun _ => Except.ok (ToolResult.ok JVal.null JVal.null))
      = Except.error
          { className := "ValueError",
            message := "Function name \x27create_campaign\x27 already registered" } :=
  (c7_register_duplicates
    { tools := [("t1",
        { id := "t1", name := "create_campaign", description := "create a campaign",
          category := ToolCategory.entity, parameters := [] })],
      handlers := [("t1", fun _ => Except.ok (ToolResult.ok JVal.null JVal.null))],
      name_to_id := [("create_campaign", "t1")] }
    { id := "t9", name := "create_campaign", description := "same name again",
      category := ToolCategory.entity, parameters := [] }
    (fun _ => Except.ok (ToolResult.ok JVal.null JVal.null))).2.1 rfl rfl

/-!
## Helper lemmas for the agent runtime
-/

/-- Against a client that always answers with tool calls, the loop consumes
one stub response per remaining iteration and ends in the MAX_ITERATIONS
output, accumulating the token usage and tool-call records of exactly the
responses at indices `idx, idx+1, ..., idx+fuel-1`. -/
theorem agent_loop_all_tool_calls (stub : Nat → LLMResponse)
    (hstub : ∀ i, (stub i).tool_calls ≠ [])
    (jlo : String → Except PyExn Obj) (jla : String → Except PyExn JVal)
    (reg : ToolRegistry) (ext : OperationExtractor) (input : AgentExecutionInput)
    (tools : Option (List JVal)) :
    ∀ (fuel idx : Nat) (messages : List Message) (total : TokensUsed)
      (calls : List JVal),
    agent_loop (fun i _ _ => Except.ok (stub i)) jlo jla reg ext input tools fuel idx
        messages total calls
      = { success := false, output := JVal.null, entity_operations := [],
          tool_calls := calls ++ (List.range' idx fuel).flatMap
            (fun i => iteration_records jlo reg input (stub i).tool_calls),
          tokens_used := (List.range' idx fuel).foldl
            (fun t i => t.add (stub i).usage) total,
          error := some
            { code := "MAX_ITERATIONS",
              message := "Agent exceeded maximum tool calling iterations ("
                ++ toString input.max_iterations ++ ")" } } := by
  intro fuel
  induction fuel with
  | zero =>
      intro idx messages total calls
      simp [agent_loop, max_iterations_output, List.range']
  | succ n ih =>
      intro idx messages total calls
      have hne : (stub idx).tool_calls.isEmpty = false :=
        List.isEmpty_eq_false.mpr (hstub idx)
      simp only [agent_loop, hne, Bool.false_eq_true, if_false]
      rw [ih (idx + 1)]
      rw [List.range'_succ]
      simp [List.append_assoc]

/-- Against a client that answers with tool calls until iteration `j` and
then raises, a loop with enough remaining fuel accumulates the first `j - idx`
responses and ends in the run-level error output for the raised exception. -/
theorem agent_loop_error_at (stub : Nat → LLMResponse) (j : Nat) (e : PyExn)
    (hstub : ∀ i, i < j → (stub i).tool_calls ≠ [])
    (jlo : String → Except PyExn Obj) (jla : String → Except PyExn JVal)
    (reg : ToolRegistry) (ext : OperationExtractor) (input : AgentExecutionInput)
    (tools : Option (List JVal)) :
    ∀ (fuel idx : Nat) (messages : List Message) (total : TokensUsed)
      (calls : List JVal),
    idx ≤ j → j < idx + fuel →
    agent_loop (fun i _ _ => if i < j then Except.ok (stub i) else Except.error e)
        jlo jla reg ext input tools fuel idx messages total calls
      = { success := false, output := JVal.null, entity_operations := [],
          tool_calls := calls ++ (List.range' idx (j - idx)).flatMap
            (fun i => iteration_records jlo reg input (stub i).tool_calls),
          tokens_used := (List.range' idx (j - idx)).foldl
            (fun t i => t.add (stub i).usage) total,
          error := some { code := e.className, message := e.message } } := by
  intro fuel
  induction fuel with
  | zero =>
      intro idx messages total calls hle hlt
      omega
  | succ n ih =>
      intro idx messages total calls hle hlt
      rcases Nat.eq_or_lt_of_le hle with heq | hlt2
      · rw [← heq]
        simp [agent_loop, Nat.sub_self, List.range', run_error_output, Nat.lt_irrefl]
      · have hok : idx < j := hlt2
        have hne : (stub idx).tool_calls.isEmpty = false :=
          List.isEmpty_eq_false.mpr (hstub idx hok)
        simp only [agent_loop, hok, if_true, hne, Bool.false_eq_true, if_false]
        rw [ih (idx + 1) _ _ _ (by omega) (by omega)]
        have hsub : j - idx = (j - (idx + 1)) + 1 := by omega
        rw [hsub, List.range'_succ]
        simp [List.append_assoc]

/-!
## Claim theorems: agent runtime
-/

/-- C3: for every `k ≥ 1`, running `execute` with `max_iterations = k`
against an LLM stub whose every response contains tool calls performs
exactly `k` LLM calls — the run consumes precisely the stub responses at
call indices `0..k-1`, whose usages and tool-call records are what the
result accumulates — and returns (does not raise) `success = false` with
error code `MAX_ITERATIONS`, with all accumulated tool-call records and
token totals still reported. -/
theorem c3_max_iterations_bound (k : Nat) (hk : 1 ≤ k)
    (stub : Nat → LLMResponse) (hstub : ∀ i, (stub i).tool_calls ≠ [])
    (bc : EntityContext → Except PyExn String) (cstr : String)
    (jlo : String → Except PyExn Obj) (jla : String → Except PyExn JVal)
    (reg : ToolRegistry) (ext : OperationExtractor) (input : AgentExecutionInput)
    (hbc : bc input.context = Except.ok cstr)
    (hmi : input.max_iterations = k) :
    AgentRuntime.execute bc (fun i _ _ => Except.ok (stub i)) jlo jla reg ext input
      = { success := false, output := JVal.null, entity_operations := [],
          tool_calls := (List.range k).flatMap
            (fun i => iteration_records jlo reg input (stub i).tool_calls),
          tokens_used := (List.range k).foldl
            (fun t i => t.add (stub i).usage) {},
          error := some
            { code := "MAX_ITERATIONS",
              message := "Agent exceeded maximum tool calling iterations ("
                ++ toString k ++ ")" } } := by
  unfold AgentRuntime.execute
  rw [hbc]
  dsimp only
  rw [agent_loop_all_tool_calls stub hstub jlo jla reg ext input _ input.max_iterations 0]
  rw [hmi, List.range_eq_range']
  simp

/-- C3 witness: a stub always answering with one tool call, `max_iterations = 2`,
ends as a MAX_ITERATIONS failure accumulating both iterations' usage and
tool-call records. -/
theorem c3_witness :
    AgentRuntime.execute (fun _ => Except.ok "ctx")
      (fun i _ _ => Except.ok
        { content := none,
          tool_calls := [{ id := "c1", name := "t", arguments := "a" }],
          usage := some { prompt_tokens := 1, completion_tokens := 2, total_tokens := 3 } })
      (fun _ => Except.error { className := "JSONDecodeError", message := "x" })
      (fun _ => Except.error { className := "JSONDecodeError", message := "x" })
      {} {}
      { input_data := [("prompt", JVal.str "hi")], context := {},
        execution_id := "e1", system_prompt := "sys", max_iterations := 2 }
      = { success := false, output := JVal.null, entity_operations := [],
          tool_calls := (List.range 2).flatMap
            (fun i => iteration_records
              (fun _ => Except.error { className := "JSONDecodeError", message := "x" })
              {}
              { input_data := [("prompt", JVal.str "hi")], context := {},
                execution_id := "e1", system_prompt := "sys", max_iterations := 2 }
              ((fun (_ : Nat) =>
                ({ content := none,
                   tool_calls := [{ id := "c1", name := "t", arguments := "a" }],
                   usage := some
                     { prompt_tokens := 1, completion_tokens := 2, total_tokens := 3 }
                 } : LLMResponse)) i).tool_calls),
          tokens_used := (List.range 2).foldl
            (fun t i => t.add ((fun (_ : Nat) =>
              ({ content := none,
                 tool_calls := [{ id := "c1", name := "t", arguments := "a" }],
                 usage := some
                   { prompt_tokens := 1, completion_tokens := 2, total_tokens := 3 }
               } : LLMResponse)) i).usage) {},
          error := some
            { code := "MAX_ITERATIONS",
              message := "Agent exceeded maximum tool calling iterations ("
                ++ toString 2 ++ ")" } } :=
  c3_max_iterations_bound 2 (by decide)
    (fun _ =>
      { content := none,
        tool_calls := [{ id := "c1", name := "t", arguments := "a" }],
        usage := some { prompt_tokens := 1, completion_tokens := 2, total_tokens := 3 } })
    (fun _ => List.cons_ne_nil _ _)
    (fun _ => Except.ok "ctx") "ctx"
    (fun _ => Except.error { className := "JSONDecodeError", message := "x" })
    (fun _ => Except.error { className := "JSONDecodeError", message := "x" })
    {} {}
    { input_data := [("prompt", JVal.str "hi")], context := {},
      execution_id := "e1", system_prompt := "sys", max_iterations := 2 }
    rfl rfl

/-- C8: a run-level exception — one escaping prompt construction, or one
escaping the LLM call at any iteration `j` reached after tool-calling
iterations — makes `execute` return (never raise) `success = false` with
error `{code: exception class name, message: str(e)}`, and the tool-call
records and token totals accumulated before the failure are still reported
(none for a prompt-construction failure; those of iterations `0..j-1` for an
LLM failure at iteration `j`). -/
theorem c8_run_level_errors :
    (∀ (bc : EntityContext → Except PyExn String)
        (llm : Nat → List Message → Option (List JVal) → Except PyExn LLMResponse)
        (jlo : String → Except PyExn Obj) (jla : String → Except PyExn JVal)
        (reg : ToolRegistry) (ext : OperationExtractor)
        (input : AgentExecutionInput) (e : PyExn),
      bc input.context = Except.error e →
      AgentRuntime.execute bc llm jlo jla reg ext input
        = { success := false, output := JVal.null, entity_operations := [],
            tool_calls := [], tokens_used := {},
            error := some { code := e.className, message := e.message } })
    ∧ (∀ (bc : EntityContext → Except PyExn String) (cstr : String)
        (jlo : String → Except PyExn Obj) (jla : String → Except PyExn JVal)
        (reg : ToolRegistry) (ext : OperationExtractor)
        (input : AgentExecutionInput) (stub : Nat → LLMResponse) (j : Nat) (e : PyExn),
      bc input.context = Except.ok cstr →
      (∀ i, i < j → (stub i).tool_calls ≠ []) →
      j < input.max_iterations →
      AgentRuntime.execute bc
          (fun i _ _ => if i < j then Except.ok (stub i) else Except.error e)
          jlo jla reg ext input
        = { success := false, output := JVal.null, entity_operations := [],
            tool_calls := (List.range j).flatMap
              (fun i => iteration_records jlo reg input (stub i).tool_calls),
            tokens_used := (List.range j).foldl
              (fun t i => t.add (stub i).usage) {},
            error := some { code := e.className, message := e.message } }) := by
  constructor
  · intro bc llm jlo jla reg ext input e hbc
    unfold AgentRuntime.execute
    rw [hbc]
    rfl
  · intro bc cstr jlo jla reg ext input stub j e hbc hstub hj
    unfold AgentRuntime.execute
    rw [hbc]
    dsimp only
    rw [agent_loop_error_at stub j e hstub jlo jla reg ext input _
      input.max_iterations 0 _ _ _ (Nat.zero_le j) (by omega)]
    rw [Nat.sub_zero, List.range_eq_range']
    simp

/-- C8 witness: a prompt-construction failure surfaces as its exception class
with nothing accumulated, and an LLM failure on the second call surfaces the
exception with the first iteration's tool-call record and tokens reported. -/
theorem c8_witness :
    AgentRuntime.execute (fun _ => Except.error { className := "RuntimeError", message := "boom" })
      (fun _ _ _ => Except.ok { content := some "ok", tool_calls := [], usage := none })
      (fun _ => Except.error { className := "JSONDecodeError", message := "x" })
      (fun _ => Except.error { className := "JSONDecodeError", message := "x" })
      {} {}
      { input_data := [("prompt", JVal.str "hi")], context := {},
        execution_id := "e1", system_prompt := "sys", max_iterations := 3 }
      = { success := false, output := JVal.null, entity_operations := [],
          tool_calls := [], tokens_used := {},
          error := some { code := "RuntimeError", message := "boom" } }
    ∧ AgentRuntime.execute (fun _ => Except.ok "ctx")
      (fun i _ _ => if i < 1 then
        Except.ok
          { content := none,
            tool_calls := [{ id := "c1", name := "t", arguments := "a" }],
            usage := some { prompt_tokens := 1, completion_tokens := 2, total_tokens := 3 } }
        else Except.error { className := "APIError", message := "rate limited" })
      (fun _ => Except.error { className := "JSONDecodeError", message := "x" })
      (fun _ => Except.error { className := "JSONDecodeError", message := "x" })
      {} {}
      { input_data := [("prompt", JVal.str "hi")], context := {},
        execution_id := "e1", system_prompt := "sys", max_iterations := 3 }
      = { success := false, output := JVal.null, entity_operations := [],
          tool_calls := (List.range 1).flatMap
            (fun i => iteration_records
              (fun _ => Except.error { className := "JSONDecodeError", message := "x" })
              {}
              { input_data := [("prompt", JVal.str "hi")], context := {},
                execution_id := "e1", system_prompt := "sys", max_iterations := 3 }
              ((fun (_ : Nat) =>
                ({ content := none,
                   tool_calls := [{ id := "c1", name := "t", arguments := "a" }],
                   usage := some
                     { prompt_tokens := 1, completion_tokens := 2, total_tokens := 3 }
                 } : LLMResponse)) i).tool_calls),
          tokens_used := (List.range 1).foldl
            (fun t i => t.add ((fun (_ : Nat) =>
              ({ content := none,
                 tool_calls := [{ id := "c1", name := "t", arguments := "a" }],
                 usage := some
                   { prompt_tokens := 1, completion_tokens := 2, total_tokens := 3 }
               } : LLMResponse)) i).usage) {},
          error := some { code := "APIError", message := "rate limited" } } :=
  ⟨c8_run_level_errors.1 (fun _ => Except.error { className := "RuntimeError", message := "boom" })
      (fun _ _ _ => Except.ok { content := some "ok", tool_calls := [], usage := none })
      (fun _ => Except.error { className := "JSONDecodeError", message := "x" })
      (fun _ => Except.error { className := "JSONDecodeError", message := "x" })
      {} {}
      { input_data := [("prompt", JVal.str "hi")], context := {},
        execution_id := "e1", system_prompt := "sys", max_iterations := 3 }
      { className := "RuntimeError", message := "boom" } rfl,
   c8_run_level_errors.2 (fun _ => Except.ok "ctx") "ctx"
      (fun _ => Except.error { className := "JSONDecodeError", message := "x" })
      (fun _ => Except.error { className := "JSONDecodeError", message := "x" })
      {} {}
      { input_data := [("prompt", JVal.str "hi")], context := {},
        execution_id := "e1", system_prompt := "sys", max_iterations := 3 }
      (fun _ =>
        { content := none,
          tool_calls := [{ id := "c1", name := "t", arguments := "a" }],
          usage := some { prompt_tokens := 1, completion_tokens := 2, total_tokens := 3 } })
      1 { className := "APIError", message := "rate limited" }
      rfl (fun _ _ => List.cons_ne_nil _ _) (by decide)⟩

/-- C9: on a terminal iteration (no tool calls, content `s`), the final
output is parsed as JSON only when the trimmed text starts with `{` — for
any text not starting with `{` the result is the plain text whatever the
parser would do (the parser is universally quantified), and when the parse
raises `json.JSONDecodeError` the output is kept as the plain text and the
run still succeeds (`success = true`, no error). -/
theorem c9_final_output_parse_guard (bc : EntityContext → Except PyExn String)
    (cstr : String) (jlo : String → Except PyExn Obj)
    (jla : String → Except PyExn JVal) (reg : ToolRegistry)
    (ext : OperationExtractor) (input : AgentExecutionInput)
    (s : String) (u : Option LLMUsage) (e : PyExn)
    (hbc : bc input.context = Except.ok cstr)
    (hmi : 1 ≤ input.max_iterations)
    (hcase : s.trim.startsWith "\x7b" = false ∨ jla s = Except.error e) :
    AgentRuntime.execute bc
        (fun _ _ _ => Except.ok { content := some s, tool_calls := [], usage := u })
        jlo jla reg ext input
      = { success := true, output := JVal.str s, entity_operations := [],
          tool_calls := [], tokens_used := TokensUsed.add {} u, error := none } := by
  unfold AgentRuntime.execute
  rw [hbc]
  dsimp only
  obtain ⟨m, hm⟩ : ∃ m, input.max_iterations = m + 1 :=
    ⟨input.max_iterations - 1, by omega⟩
  rw [hm]
  have hparse : parse_final_output jla (some s) = JVal.str s := by
    rcases hcase with h | h
    · simp [parse_final_output, h]
    · by_cases hg : (!s.isEmpty && s.trim.startsWith "\x7b")
      · simp [parse_final_output, hg, h]
      · simp [parse_final_output, hg]
  simp [agent_loop, hparse, OperationExtractor.extract, tool_result_ops]

/-- C9 witness: text starting with `{` that fails to parse is kept verbatim
as the successful plain-text output. -/
theorem c9_witness :
    AgentRuntime.execute (fun _ => Except.ok "ctx")
      (fun _ _ _ => Except.ok
        { content := some "\x7bnot json", tool_calls := [], usage := none })
      (fun _ => Except.error { className := "JSONDecodeError", message := "x" })
      (fun _ => Except.error
        { className := "JSONDecodeError", message := "Expecting value" })
      {} {}
      { input_data := [("prompt", JVal.str "hi")], context := {},
        execution_id := "e1", system_prompt := "sys", max_iterations := 10 }
      = { success := true, output := JVal.str "\x7bnot json", entity_operations := [],
          tool_calls := [], tokens_used := TokensUsed.add {} none, error := none } :=
  c9_final_output_parse_guard (fun _ => Except.ok "ctx") "ctx"
    (fun _ => Except.error { className := "JSONDecodeError", message := "x" })
    (fun _ => Except.error
      { className := "JSONDecodeError", message := "Expecting value" })
    {} {}
    { input_data := [("prompt", JVal.str "hi")], context := {},
      execution_id := "e1", system_prompt := "sys", max_iterations := 10 }
    "\x7bnot json" none { className := "JSONDecodeError", message := "Expecting value" }
    rfl (by decide) (Or.inr rfl)
